import Mathlib

/-!
Verification of the Prowler Google Chat integration
(`prowler/lib/outputs/google_chat/google_chat.py`,
`prowler/lib/outputs/google_chat/exceptions/exceptions.py`,
`prowler/lib/outputs/utils.py`).

The Python code is shallowly embedded: JSON-like payloads become an
inductive `JVal`, the `stats` dict becomes an association list of
integer-valued fields, Python float arithmetic in the percentage
calculator is modelled with exact rationals (CPython `round(_, 2)` is
round-half-to-even, modelled exactly on `Rat`), and the
respond/raise behaviour of `requests.post` is abstracted into a
`PostOutcome` the functions dispatch on, with raised exceptions as
`Except` errors.
-/

/-- JSON-like values appearing in the Cards v2 payloads: every leaf the
builders produce is a string, so strings, arrays and objects suffice. -/
inductive JVal where
  | s : String → JVal
  | arr : List JVal → JVal
  | obj : List (String × JVal) → JVal

/-- Lookup of a key in a JSON object (`None` on non-objects / missing key). -/
def jGet (j : JVal) (key : String) : Option JVal :=
  match j with
  | JVal.obj fields => fields.lookup key
  | _ => none

/-- Index into a JSON array. -/
def jAt (j : JVal) (i : Nat) : Option JVal :=
  match j with
  | JVal.arr xs => xs[i]?
  | _ => none

/-- Extract a JSON string leaf. -/
def jStr (j : JVal) : Option String :=
  match j with
  | JVal.s v => some v
  | _ => none

/-- The `stats` mapping: an association list of integer-valued fields,
mirroring the Python dict consumed by the builders. -/
abbrev Stats := List (String × Int)

/-- Model of Python `stats.get(key, dflt)`. -/
def dictGet (stats : Stats) (key : String) (dflt : Int) : Int :=
  (List.lookup key stats).getD dflt

/-- CPython `round(x)` on an exact rational: round to the nearest
integer, ties to the even integer (banker's rounding). -/
def pyRoundHalfEven (q : Rat) : Int :=
  let f := ⌊q⌋
  let r := q - (f : Rat)
  if r < 1 / 2 then f
  else if 1 / 2 < r then f + 1
  else if f % 2 = 0 then f else f + 1

/-- CPython `round(x, 2)` on an exact rational. -/
def pyRound2 (q : Rat) : Rat :=
  (pyRoundHalfEven (q * 100) : Rat) / 100

/-- Embedding of `GoogleChat.__calculate_percentage`: `0.0` when the
total is falsy (zero), otherwise `round((count / total) * 100, 2)`.
The function is total -- the `except` fallback to `0.0` in the source
is unreachable under exact arithmetic. -/
def calculate_percentage (count : Int) (total : Int) : Rat :=
  if total = 0 then 0
  else pyRound2 ((count : Rat) / (total : Rat) * 100)

/-- Rendering of a two-decimal float value as CPython `repr` shows it
inside an f-string (`0.0`, `54.5`, `54.55`, `-4.5`): defined for the
rounded percentages, whose denominator divides 100. -/
def pyFloatRepr (q : Rat) : String :=
  let neg := q < 0
  let a := if neg then -q else q
  let i := ⌊a⌋
  let c := ⌊(a - (i : Rat)) * 100⌋
  let base :=
    if c = 0 then toString i ++ ".0"
    else if c % 10 = 0 then toString i ++ "." ++ toString (c / 10)
    else if c < 10 then toString i ++ ".0" ++ toString c
    else toString i ++ "." ++ toString c
  (if neg then "-" else "") ++ base

/-- Embedding of `build_summary_title` (`prowler/lib/outputs/utils.py`):
the greeting interpolates `stats['findings_count']`; a missing key
raises `KeyError`, which the `except` clause converts to `""`. -/
def build_summary_title (identity : String) (stats : Stats) : String :=
  match List.lookup "findings_count" stats with
  | some fc =>
      "Hey there 👋 \n I\x27m *Prowler*, _the handy multi-cloud security tool_ " ++
      ":cloud::key:\n\n I have just finished the security assessment on your " ++
      identity ++ " with a total of *" ++ toString fc ++ "* findings."
  | none => ""

/-- Embedding of `GoogleChat.__build_identity_section`: Python
`identity or fallback` substitutes the fallback for an empty string. -/
def build_identity_section (identity : String) (logo : String) (stats : Stats) : JVal :=
  JVal.obj [("widgets", JVal.arr [
    JVal.obj [("decoratedText", JVal.obj [
      ("text", JVal.s ("*Environment*\n" ++
        (if identity = "" then "Unknown provider" else identity))),
      ("startIcon", JVal.obj [
        ("altText", JVal.s "Provider Logo"),
        ("imageUrl", JVal.s logo)])])],
    JVal.obj [("textParagraph", JVal.obj [
      ("text", JVal.s (build_summary_title
        (if identity = "" then "your environment" else identity) stats))])]])]

/-- Embedding of `GoogleChat.__build_statistics_section`. -/
def build_statistics_section (stats : Stats) : JVal :=
  let pass_percentage := calculate_percentage
    (dictGet stats "total_pass" 0) (dictGet stats "findings_count" 0)
  let fail_percentage := calculate_percentage
    (dictGet stats "total_fail" 0) (dictGet stats "findings_count" 0)
  let pass_severity :=
    "*Severities:* " ++
    "Critical " ++ toString (dictGet stats "total_critical_severity_pass" 0) ++ " • " ++
    "High " ++ toString (dictGet stats "total_high_severity_pass" 0) ++ " • " ++
    "Medium " ++ toString (dictGet stats "total_medium_severity_pass" 0) ++ " • " ++
    "Low " ++ toString (dictGet stats "total_low_severity_pass" 0)
  let fail_severity :=
    "*Severities:* " ++
    "Critical " ++ toString (dictGet stats "total_critical_severity_fail" 0) ++ " • " ++
    "High " ++ toString (dictGet stats "total_high_severity_fail" 0) ++ " • " ++
    "Medium " ++ toString (dictGet stats "total_medium_severity_fail" 0) ++ " • " ++
    "Low " ++ toString (dictGet stats "total_low_severity_fail" 0)
  JVal.obj [("widgets", JVal.arr [
    JVal.obj [("decoratedText", JVal.obj [
      ("text", JVal.s ("✅ *" ++ toString (dictGet stats "total_pass" 0) ++
        " Passed findings* (" ++ pyFloatRepr pass_percentage ++ "%)")),
      ("bottomText", JVal.s pass_severity)])],
    JVal.obj [("decoratedText", JVal.obj [
      ("text", JVal.s ("❌ *" ++ toString (dictGet stats "total_fail" 0) ++
        " Failed findings* (" ++ pyFloatRepr fail_percentage ++ "%)")),
      ("bottomText", JVal.s fail_severity)])],
    JVal.obj [("decoratedText", JVal.obj [
      ("text", JVal.s ("📊 *" ++ toString (dictGet stats "resources_count" 0) ++
        " Scanned Resources*")),
      ("bottomText", JVal.s ("Total findings analysed: " ++
        toString (dictGet stats "findings_count" 0)))])]])]

/-- Embedding of `GoogleChat.__build_parameters_section`: Python tests
`if args` (truthy, i.e. non-empty). -/
def build_parameters_section (args : String) : JVal :=
  let parameters_text :=
    if args = "" then "*Used parameters*\n`prowler`"
    else "*Used parameters*\n`prowler " ++ args ++ "`"
  JVal.obj [("widgets", JVal.arr [
    JVal.obj [("textParagraph", JVal.obj [
      ("text", JVal.s parameters_text)])]])]

/-- Fixed default card header (`DEFAULT_CARD_HEADER`). -/
def DEFAULT_CARD_HEADER : String := "Prowler Scan Summary"

/-- Fixed request timeout in seconds (`REQUEST_TIMEOUT_SECONDS`). -/
def REQUEST_TIMEOUT_SECONDS : Nat := 10

/-- Model of the Python `or` chain on optional strings: an unset value
(`None`) and the empty string are both falsy and fall through to the
default. -/
def pyOrStr (o : Option String) (d : String) : String :=
  match o with
  | some s => if s = "" then d else s
  | none => d

/-- Embedding of `DEFAULT_SUBTITLE`, parametrised by the process
environment: `os.getenv("AUTH_URL") or os.getenv("PROWLER_URL") or
"https://prowler.com"`. -/
def DEFAULT_SUBTITLE (env : String → Option String) : String :=
  pyOrStr (env "AUTH_URL") (pyOrStr (env "PROWLER_URL") "https://prowler.com")

/-- Modelled from the spec: `square_logo_img` lives in
`prowler/config/config.py`, which is not part of the sources; the spec
only says the avatar is a fixed constant, so its exact value is an
arbitrary fixed string here. -/
def square_logo_img : String := "https://prowler.com/square-logo.png"

/-- Embedding of `get_prowler_avatar` (`prowler/lib/outputs/utils.py`). -/
def get_prowler_avatar : String := square_logo_img

/-- The three Google Chat error classes of
`prowler/lib/outputs/google_chat/exceptions/exceptions.py`. -/
inductive GCErrorClass where
  | clientError
  | invalidWebhookError
  | sendMessageError
deriving DecidableEq

/-- Numeric code passed by each concrete class to the base constructor. -/
def classCode : GCErrorClass → Int
  | GCErrorClass.clientError => 9000
  | GCErrorClass.invalidWebhookError => 9001
  | GCErrorClass.sendMessageError => 9002

/-- Python class name of each error class (`self.__class__.__name__`). -/
def gcClassName : GCErrorClass → String
  | GCErrorClass.clientError => "GoogleChatClientError"
  | GCErrorClass.invalidWebhookError => "GoogleChatInvalidWebhookError"
  | GCErrorClass.sendMessageError => "GoogleChatSendMessageError"

/-- Entry of the `GOOGLE_CHAT_ERROR_CODES` table: default message and
remediation text. -/
structure ErrorInfo where
  message : String
  remediation : String
deriving DecidableEq

/-- Embedding of the class-level `GOOGLE_CHAT_ERROR_CODES` table, keyed
by `(code, class name)`. -/
def GOOGLE_CHAT_ERROR_CODES : List ((Int × String) × ErrorInfo) :=
  [((9000, "GoogleChatClientError"),
    { message := "Google Chat client error occurred",
      remediation := "Verify the webhook URL, networking rules, and retry the request." }),
   ((9001, "GoogleChatInvalidWebhookError"),
    { message := "Invalid Google Chat webhook URL",
      remediation := "Ensure the webhook URL matches the expected Google Chat format." }),
   ((9002, "GoogleChatSendMessageError"),
    { message := "Google Chat message was not accepted",
      remediation := "Review the response payload for details and adjust the request body." })]

/-- Underlying exceptions that can be wrapped as `original_exception`. -/
inductive TransportError where
  | connectionError (detail : String)
  | dnsFailure (detail : String)
  | timeout
deriving DecidableEq

/-- Payload stored in an error's `original_exception` slot. -/
inductive OriginalExc where
  | transport (e : TransportError)
  | other (detail : String)
deriving DecidableEq

/-- A constructed Google Chat exception value: class, numeric code,
message, remediation and optional wrapped original exception. -/
structure GCError where
  cls : GCErrorClass
  code : Int
  message : String
  remediation : String
  original_exception : Option OriginalExc
deriving DecidableEq

/-- Default remediation text a class picks up from the pristine
`GOOGLE_CHAT_ERROR_CODES` table. -/
def defaultRemediation (cls : GCErrorClass) : String :=
  ((List.lookup (classCode cls, gcClassName cls) GOOGLE_CHAT_ERROR_CODES).getD
    { message := "Unknown Google Chat error", remediation := "" }).remediation

/-- Exception value produced by `GoogleChatClientError(...)` /
`GoogleChatInvalidWebhookError(...)` / `GoogleChatSendMessageError(...)`
when a non-empty explicit `message` is passed, as every raise site in
`google_chat.py` does: the explicit message replaces the table default
(the table side effect of the constructor is modelled separately by
`googleChatErrorInitT`). -/
def mkGoogleChatError (cls : GCErrorClass) (message : String)
    (orig : Option OriginalExc) : GCError :=
  { cls := cls, code := classCode cls, message := message,
    remediation := defaultRemediation cls, original_exception := orig }

/-- Candidate value passed as the webhook URL: a Python string, `None`,
or a value of some other type. -/
inductive WebhookInput where
  | str (s : String)
  | pyNone
  | nonString (detail : String)
deriving DecidableEq

/-- Model of Python `s.startswith(p)`: `p` is an initial segment of the
character sequence of `s`. -/
def pyStartsWith (s p : String) : Bool :=
  List.isPrefixOf p.data s.data

/-- Embedding of `GoogleChat.__validate_webhook_url`: `None`, the empty
string and non-strings are rejected first (`not webhook_url or not
isinstance(webhook_url, str)`), then the fixed URL start is required. -/
def validate_webhook_url : WebhookInput → Except GCError String
  | WebhookInput.str s =>
      if s = "" then
        Except.error (mkGoogleChatError GCErrorClass.invalidWebhookError
          "Google Chat webhook URL is required." none)
      else if pyStartsWith s "https://chat.googleapis.com/" then Except.ok s
      else
        Except.error (mkGoogleChatError GCErrorClass.invalidWebhookError
          "Google Chat webhook URL must start with https://chat.googleapis.com/." none)
  | _ =>
      Except.error (mkGoogleChatError GCErrorClass.invalidWebhookError
        "Google Chat webhook URL is required." none)

/-- An HTTP response as the code observes it: status code, body text,
and the result of `response.json()` (`none` models the `ValueError`
raised on a body that is not valid JSON). -/
structure HttpResponse where
  status_code : Int
  text : String
  jsonBody : Option JVal

/-- Result of a successful `send`: parsed JSON, raw text, or `None`. -/
inductive JResult where
  | json (j : JVal)
  | text (t : String)
  | null

/-- Embedding of `GoogleChat.__safe_response_content`: empty body gives
`None`; a non-empty body gives the parsed JSON, or the raw text when
`response.json()` raises `ValueError`. -/
def safe_response_content (r : HttpResponse) : JResult :=
  if r.text = "" then JResult.null
  else
    match r.jsonBody with
    | some j => JResult.json j
    | none => JResult.text r.text

/-- Outcome of the `requests.post` call (and of the code around it
inside the `try` block): a response, a raised
`requests.exceptions.RequestException`, or any other exception. -/
inductive PostOutcome where
  | response (r : HttpResponse)
  | requestError (e : TransportError)
  | unexpectedError (detail : String)

/-- Embedding of `GoogleChat.send` as a function of the outcome of the
POST: a 2xx response returns the safe body; any other status raises
`GoogleChatSendMessageError` (re-raised unchanged by the first
`except`); a `RequestException` and any other exception are wrapped
into `GoogleChatClientError` with the underlying error attached. -/
def send (outcome : PostOutcome) : Except GCError JResult :=
  match outcome with
  | PostOutcome.response r =>
      if 200 ≤ r.status_code ∧ r.status_code < 300 then
        Except.ok (safe_response_content r)
      else
        Except.error (mkGoogleChatError GCErrorClass.sendMessageError
          ("Google Chat webhook returned " ++ toString r.status_code ++ ": " ++ r.text)
          none)
  | PostOutcome.requestError e =>
      Except.error (mkGoogleChatError GCErrorClass.clientError
        "Failed to call Google Chat webhook" (some (OriginalExc.transport e)))
  | PostOutcome.unexpectedError s =>
      Except.error (mkGoogleChatError GCErrorClass.clientError
        "Unexpected error building Google Chat message" (some (OriginalExc.other s)))

/-- Modelled from the spec: `Connection` lives in
`prowler.providers.common.models`, which is not part of the sources;
the spec says a Connection Result is either connected, or not connected
with an attached error, and the code builds it as
`Connection(is_connected=True)` or `Connection(error=exception)` with
`is_connected` defaulting to false and `error` to none. -/
structure Connection where
  is_connected : Bool
  error : Option GCError
deriving DecidableEq

/-- Embedding of the static `GoogleChat.test_connection`: validate the
URL, POST the fixed test card, and classify exactly as `send` does,
except that each failure either raises or is returned inside a
not-connected `Connection`, as `raise_on_exception` dictates. -/
def test_connection (webhook : WebhookInput) (outcome : PostOutcome)
    (raise_on_exception : Bool) : Except GCError Connection :=
  match validate_webhook_url webhook with
  | Except.error e =>
      if raise_on_exception then Except.error e
      else Except.ok { is_connected := false, error := some e }
  | Except.ok _ =>
      match outcome with
      | PostOutcome.response r =>
          if 200 ≤ r.status_code ∧ r.status_code < 300 then
            Except.ok { is_connected := true, error := none }
          else
            let ex := mkGoogleChatError GCErrorClass.sendMessageError
              ("Google Chat webhook returned " ++ toString r.status_code ++ ": " ++ r.text)
              none
            if raise_on_exception then Except.error ex
            else Except.ok { is_connected := false, error := some ex }
      | PostOutcome.requestError e =>
          let ex := mkGoogleChatError GCErrorClass.clientError
            "Failed to reach Google Chat webhook" (some (OriginalExc.transport e))
          if raise_on_exception then Except.error ex
          else Except.ok { is_connected := false, error := some ex }
      | PostOutcome.unexpectedError s =>
          let ex := mkGoogleChatError GCErrorClass.clientError
            "Unexpected error testing Google Chat webhook" (some (OriginalExc.other s))
          if raise_on_exception then Except.error ex
          else Except.ok { is_connected := false, error := some ex }

/-- The state held by a constructed `GoogleChat` instance. -/
structure GoogleChatState where
  webhook_url : String
  space_name : Option String
  card_header : String

/-- Embedding of `GoogleChat.__init__`: the URL is validated, the space
name is stored as given, and the card header falls back to the default
on `None` or an empty string (`card_header or DEFAULT_CARD_HEADER`). -/
def mkGoogleChat (webhook : WebhookInput) (space_name : Option String)
    (card_header : Option String) : Except GCError GoogleChatState :=
  match validate_webhook_url webhook with
  | Except.error e => Except.error e
  | Except.ok url =>
      Except.ok { webhook_url := url, space_name := space_name,
                  card_header := pyOrStr card_header DEFAULT_CARD_HEADER }

/-- Embedding of `GoogleChat.__build_message`. -/
def build_message (env : String → Option String) (gc : GoogleChatState)
    (identity : String) (logo : String) (stats : Stats) (args : String) : JVal :=
  JVal.obj [("cardsV2", JVal.arr [
    JVal.obj [
      ("cardId", JVal.s "prowler-summary"),
      ("card", JVal.obj [
        ("header", JVal.obj [
          ("title", JVal.s gc.card_header),
          ("subtitle", JVal.s (pyOrStr gc.space_name (DEFAULT_SUBTITLE env))),
          ("imageUrl", JVal.s get_prowler_avatar),
          ("imageType", JVal.s "SQUARE")]),
        ("sections", JVal.arr [
          build_identity_section identity logo stats,
          build_statistics_section stats,
          build_parameters_section args])])]])]

/-- Table-threading form of `GoogleChatBaseException.__init__`: the
`error_info` dict returned by `.get` on the class-level table is
mutated in place when a truthy (non-empty) message is passed, so the
table entry itself changes; a falsy message leaves both the info and
the table untouched. Returns the constructed error and the table as it
stands afterwards. -/
def googleChatErrorInitT (table : List ((Int × String) × ErrorInfo))
    (cls : GCErrorClass) (message : Option String) :
    GCError × List ((Int × String) × ErrorInfo) :=
  let key := (classCode cls, gcClassName cls)
  let info := (List.lookup key table).getD
    { message := "Unknown Google Chat error", remediation := "" }
  match message with
  | some m =>
      if m = "" then
        ({ cls := cls, code := classCode cls, message := info.message,
           remediation := info.remediation, original_exception := none }, table)
      else
        ({ cls := cls, code := classCode cls, message := m,
           remediation := info.remediation, original_exception := none },
         table.map (fun kv =>
           if kv.1 = key then (kv.1, { message := m, remediation := kv.2.remediation })
           else kv))
  | none =>
      ({ cls := cls, code := classCode cls, message := info.message,
         remediation := info.remediation, original_exception := none }, table)

/-- Substring containment: `x` occurs contiguously inside `m`. -/
def ContainsSub (m x : String) : Prop :=
  ∃ a b : String, m = a ++ x ++ b

/-- Text of the `decoratedText` widget at index `i` of a section. -/
def widgetDecoratedTextOf (sec : JVal) (i : Nat) : Option String :=
  Option.bind
    (Option.bind
      (Option.bind
        (Option.bind (jGet sec "widgets") (fun j => jAt j i))
        (fun j => jGet j "decoratedText"))
      (fun j => jGet j "text"))
    jStr

/-- Text of the `textParagraph` widget at index `i` of a section. -/
def widgetParagraphTextOf (sec : JVal) (i : Nat) : Option String :=
  Option.bind
    (Option.bind
      (Option.bind
        (Option.bind (jGet sec "widgets") (fun j => jAt j i))
        (fun j => jGet j "textParagraph"))
      (fun j => jGet j "text"))
    jStr

/-- The single card of a `cardsV2` payload. -/
def cardOf (msg : JVal) : Option JVal :=
  Option.bind (Option.bind (jGet msg "cardsV2") (fun j => jAt j 0))
    (fun j => jGet j "card")

/-- Header title of a `cardsV2` payload. -/
def headerTitleOf (msg : JVal) : Option String :=
  Option.bind
    (Option.bind (Option.bind (cardOf msg) (fun j => jGet j "header"))
      (fun j => jGet j "title"))
    jStr

/-- Header subtitle of a `cardsV2` payload. -/
def headerSubtitleOf (msg : JVal) : Option String :=
  Option.bind
    (Option.bind (Option.bind (cardOf msg) (fun j => jGet j "header"))
      (fun j => jGet j "subtitle"))
    jStr

/-- Sections array of a `cardsV2` payload. -/
def cardSectionsOf (msg : JVal) : Option JVal :=
  Option.bind (cardOf msg) (fun j => jGet j "sections")

/-- The pass percentage computed inside
`GoogleChat.__build_statistics_section`. -/
def pass_percentage_of (stats : Stats) : Rat :=
  calculate_percentage (dictGet stats "total_pass" 0) (dictGet stats "findings_count" 0)

/-- The fail percentage computed inside
`GoogleChat.__build_statistics_section`. -/
def fail_percentage_of (stats : Stats) : Rat :=
  calculate_percentage (dictGet stats "total_fail" 0) (dictGet stats "findings_count" 0)

/-- Default message a class picks up from the pristine
`GOOGLE_CHAT_ERROR_CODES` table. -/
def defaultMessage (cls : GCErrorClass) : String :=
  ((List.lookup (classCode cls, gcClassName cls) GOOGLE_CHAT_ERROR_CODES).getD
    { message := "Unknown Google Chat error", remediation := "" }).message

/-- Evaluation rule for the banker's rounding when the fractional part
is below one half. -/
lemma pyRoundHalfEven_of_lt (q : Rat) (f : Int) (hf : ⌊q⌋ = f)
    (h : q - (f : Rat) < 1 / 2) : pyRoundHalfEven q = f := by
  simp only [pyRoundHalfEven, hf, if_pos h]

/-- Evaluation rule for the banker's rounding when the fractional part
is above one half. -/
lemma pyRoundHalfEven_of_gt (q : Rat) (f : Int) (hf : ⌊q⌋ = f)
    (h : 1 / 2 < q - (f : Rat)) : pyRoundHalfEven q = f + 1 := by
  have h1 : ¬ q - (f : Rat) < 1 / 2 := by linarith
  simp only [pyRoundHalfEven, hf, if_neg h1, if_pos h]

/-- C2: URL validation returns the string unchanged exactly when it is
a non-empty string starting with `https://chat.googleapis.com/` (any
suffix accepted), and fails with the invalid-webhook error class for
every other value (empty, non-string, `None`, or wrong URL start). -/
theorem validate_webhook_url_spec :
    (∀ s : String,
      validate_webhook_url (WebhookInput.str s) = Except.ok s ↔
        (s ≠ "" ∧ pyStartsWith s "https://chat.googleapis.com/" = true)) ∧
    (∀ w : WebhookInput,
      (∀ s : String, w = WebhookInput.str s →
        s = "" ∨ pyStartsWith s "https://chat.googleapis.com/" = false) →
      ∃ e : GCError, validate_webhook_url w = Except.error e ∧
        e.cls = GCErrorClass.invalidWebhookError) := by
  constructor
  · intro s
    constructor
    · intro h
      by_cases hs : s = ""
      · simp [validate_webhook_url, hs] at h
      · by_cases hp : pyStartsWith s "https://chat.googleapis.com/" = true
        · exact ⟨hs, hp⟩
        · simp [validate_webhook_url, hs, hp] at h
    · rintro ⟨hs, hp⟩
      simp [validate_webhook_url, hs, hp]
  · intro w hw
    cases w with
    | str s =>
        rcases hw s rfl with h | h
        · subst h
          refine ⟨_, rfl, ?_⟩
          rfl
        · by_cases hs : s = ""
          · subst hs
            refine ⟨_, rfl, ?_⟩
            rfl
          · refine ⟨mkGoogleChatError GCErrorClass.invalidWebhookError
              "Google Chat webhook URL must start with https://chat.googleapis.com/." none,
              ?_, rfl⟩
            simp [validate_webhook_url, hs, h]
    | pyNone =>
        refine ⟨_, rfl, ?_⟩
        rfl
    | nonString d =>
        refine ⟨_, rfl, ?_⟩
        rfl

/-- Witness for C2: a URL with the correct start and arbitrary suffix
is returned unchanged, and `None` fails with the invalid-webhook error
class. -/
theorem validate_webhook_url_spec_witness :
    validate_webhook_url
      (WebhookInput.str "https://chat.googleapis.com/v1/spaces/AAAA/messages?key=fake") =
      Except.ok "https://chat.googleapis.com/v1/spaces/AAAA/messages?key=fake" ∧
    (∃ e : GCError, validate_webhook_url WebhookInput.pyNone = Except.error e ∧
      e.cls = GCErrorClass.invalidWebhookError) := by
  constructor
  · exact (validate_webhook_url_spec.1 _).mpr ⟨by decide, by decide⟩
  · exact validate_webhook_url_spec.2 WebhookInput.pyNone
      (fun s h => WebhookInput.noConfusion h)

/-- C9: the parameters section is a single `textParagraph` widget whose
text is the fixed literal program name with no trailing whitespace when
`args` is empty, and the program name, one space and `args` when it is
non-empty. -/
theorem build_parameters_section_spec (args : String) :
    build_parameters_section args =
      JVal.obj [("widgets", JVal.arr [
        JVal.obj [("textParagraph", JVal.obj [
          ("text", JVal.s ("*Used parameters*\n`prowler" ++
            (if args = "" then "" else " " ++ args) ++ "`"))])]])] := by
  by_cases h : args = ""
  · subst h
    rfl
  · simp only [build_parameters_section, if_neg h]
    have hsplit : "*Used parameters*\n`prowler " ++ args ++ "`" =
        "*Used parameters*\n`prowler" ++ (" " ++ args) ++ "`" := by
      rw [show "*Used parameters*\n`prowler " =
        "*Used parameters*\n`prowler" ++ " " from rfl]
      simp only [String.append_assoc]
    rw [hsplit]

/-- Containment of the status code in the failure message built by
`send` and `test_connection`. -/
lemma containsSub_status (st : Int) (t : String) :
    ContainsSub ("Google Chat webhook returned " ++ toString st ++ ": " ++ t)
      (toString st) := by
  refine ⟨"Google Chat webhook returned ", ": " ++ t, ?_⟩
  simp only [String.append_assoc]

/-- Containment of the response body text in the failure message built
by `send` and `test_connection`. -/
lemma containsSub_text (st : Int) (t : String) :
    ContainsSub ("Google Chat webhook returned " ++ toString st ++ ": " ++ t) t := by
  refine ⟨"Google Chat webhook returned " ++ toString st ++ ": ", "", ?_⟩
  rw [String.append_empty]

/-- C3: every response with status code below 200 or at least 300 makes
`send` raise, and `test_connection` on a valid URL fail with, a
`GoogleChatSendMessageError` whose message contains both the status
code and the response body text (in the result-mode of
`test_connection` the same error is carried in the connection). -/
theorem send_non_2xx_spec (r : HttpResponse)
    (h : r.status_code < 200 ∨ 300 ≤ r.status_code) :
    (∃ e : GCError, send (PostOutcome.response r) = Except.error e ∧
      e.cls = GCErrorClass.sendMessageError ∧
      ContainsSub e.message (toString r.status_code) ∧
      ContainsSub e.message r.text) ∧
    (∀ w : WebhookInput, ∀ url : String, validate_webhook_url w = Except.ok url →
      ∃ e : GCError, test_connection w (PostOutcome.response r) true = Except.error e ∧
        e.cls = GCErrorClass.sendMessageError ∧
        ContainsSub e.message (toString r.status_code) ∧
        ContainsSub e.message r.text) ∧
    (∀ w : WebhookInput, ∀ url : String, validate_webhook_url w = Except.ok url →
      ∃ e : GCError, test_connection w (PostOutcome.response r) false =
        Except.ok { is_connected := false, error := some e } ∧
        e.cls = GCErrorClass.sendMessageError ∧
        ContainsSub e.message (toString r.status_code) ∧
        ContainsSub e.message r.text) := by
  have hcond : ¬ (200 ≤ r.status_code ∧ r.status_code < 300) := by
    rcases h with h | h <;> omega
  refine ⟨?_, ?_, ?_⟩
  · refine ⟨mkGoogleChatError GCErrorClass.sendMessageError
      ("Google Chat webhook returned " ++ toString r.status_code ++ ": " ++ r.text) none,
      ?_, rfl, containsSub_status _ _, containsSub_text _ _⟩
    simp [send, hcond]
  · intro w url hw
    refine ⟨mkGoogleChatError GCErrorClass.sendMessageError
      ("Google Chat webhook returned " ++ toString r.status_code ++ ": " ++ r.text) none,
      ?_, rfl, containsSub_status _ _, containsSub_text _ _⟩
    simp [test_connection, hw, hcond]
  · intro w url hw
    refine ⟨mkGoogleChatError GCErrorClass.sendMessageError
      ("Google Chat webhook returned " ++ toString r.status_code ++ ": " ++ r.text) none,
      ?_, rfl, containsSub_status _ _, containsSub_text _ _⟩
    simp [test_connection, hw, hcond]

/-- Witness for C3: a 400 response with body `Bad Request` makes both
`send` and `test_connection` fail with the send-message error class,
the message containing `400` and the body. -/
theorem send_non_2xx_spec_witness :
    (∃ e : GCError,
      send (PostOutcome.response { status_code := 400, text := "Bad Request", jsonBody := none }) =
        Except.error e ∧
      e.cls = GCErrorClass.sendMessageError ∧
      ContainsSub e.message (toString (400 : Int)) ∧
      ContainsSub e.message "Bad Request") ∧
    (∃ e : GCError,
      test_connection (WebhookInput.str "https://chat.googleapis.com/v1/spaces/A")
        (PostOutcome.response { status_code := 400, text := "Bad Request", jsonBody := none })
        true = Except.error e ∧
      e.cls = GCErrorClass.sendMessageError ∧
      ContainsSub e.message (toString (400 : Int)) ∧
      ContainsSub e.message "Bad Request") := by
  have h := send_non_2xx_spec
    { status_code := 400, text := "Bad Request", jsonBody := none } (Or.inr (by decide))
  exact ⟨h.1, h.2.1 (WebhookInput.str "https://chat.googleapis.com/v1/spaces/A")
    "https://chat.googleapis.com/v1/spaces/A" rfl⟩

/-- C4: every 2xx response makes `send` succeed, returning the parsed
JSON body when the body text is non-empty and parses, the raw body text
when it is non-empty but `response.json()` fails, and `None` when the
body is empty. -/
theorem send_2xx_spec (r : HttpResponse)
    (h : 200 ≤ r.status_code ∧ r.status_code < 300) :
    (r.text = "" → send (PostOutcome.response r) = Except.ok JResult.null) ∧
    (∀ j : JVal, r.text ≠ "" → r.jsonBody = some j →
      send (PostOutcome.response r) = Except.ok (JResult.json j)) ∧
    (r.text ≠ "" → r.jsonBody = none →
      send (PostOutcome.response r) = Except.ok (JResult.text r.text)) := by
  refine ⟨?_, ?_, ?_⟩
  · intro ht
    simp [send, h, safe_response_content, ht]
  · intro j ht hj
    simp [send, h, safe_response_content, ht, hj]
  · intro ht hj
    simp [send, h, safe_response_content, ht, hj]

/-- Witness for C4: a 200 response with JSON body returns the parsed
JSON, a 200 response with non-JSON body returns the raw text, a 204
response with empty body returns `None`. -/
theorem send_2xx_spec_witness :
    send (PostOutcome.response
        { status_code := 200, text := "{}", jsonBody := some (JVal.obj []) }) =
      Except.ok (JResult.json (JVal.obj [])) ∧
    send (PostOutcome.response { status_code := 200, text := "ok", jsonBody := none }) =
      Except.ok (JResult.text "ok") ∧
    send (PostOutcome.response { status_code := 204, text := "", jsonBody := none }) =
      Except.ok JResult.null := by
  refine ⟨?_, ?_, ?_⟩
  · exact (send_2xx_spec _ (by constructor <;> decide)).2.1 (JVal.obj [])
      (by decide) rfl
  · exact (send_2xx_spec _ (by constructor <;> decide)).2.2 (by decide) rfl
  · exact (send_2xx_spec _ (by constructor <;> decide)).1 rfl


/-- Result-mode characterization: `test_connection` with
`raise_on_exception = false` returns, for every URL and outcome, the
connection the raising mode yields on success, and a not-connected
connection carrying the error the raising mode raises on failure. -/
lemma test_connection_false_eq (w : WebhookInput) (outcome : PostOutcome) :
    test_connection w outcome false =
      Except.ok (match test_connection w outcome true with
        | Except.ok c => c
        | Except.error e => { is_connected := false, error := some e }) := by
  unfold test_connection
  cases validate_webhook_url w with
  | error e => simp
  | ok url =>
      cases outcome with
      | response r =>
          by_cases hc : 200 ≤ r.status_code ∧ r.status_code < 300 <;> simp [hc]
      | requestError e => simp
      | unexpectedError s => simp

/-- Raising-mode success shape: when `test_connection` with
`raise_on_exception = true` succeeds, the result is the connected
connection with no error. -/
lemma test_connection_true_ok (w : WebhookInput) (outcome : PostOutcome)
    (c : Connection) (h : test_connection w outcome true = Except.ok c) :
    c = { is_connected := true, error := none } := by
  unfold test_connection at h
  revert h
  cases validate_webhook_url w with
  | error e =>
      intro h
      simp at h
  | ok url =>
      cases outcome with
      | response r =>
          by_cases hc : 200 ≤ r.status_code ∧ r.status_code < 300
          · intro h
            simp [hc] at h
            exact h.symm
          · intro h
            simp [hc] at h
      | requestError e =>
          intro h
          simp at h
      | unexpectedError s =>
          intro h
          simp at h

/-- C5: `test_connection` in result mode never raises -- for every URL
and every outcome it returns some `Connection` -- and that result
carries exactly the typed error the raising mode would have raised,
while a raising-mode success is the connected result with no error and
the body discarded, identical in both modes. -/
theorem test_connection_no_raise_spec (w : WebhookInput) (outcome : PostOutcome) :
    (∃ c : Connection, test_connection w outcome false = Except.ok c) ∧
    (∀ e : GCError, test_connection w outcome true = Except.error e →
      test_connection w outcome false =
        Except.ok { is_connected := false, error := some e }) ∧
    (∀ c : Connection, test_connection w outcome true = Except.ok c →
      c = { is_connected := true, error := none } ∧
      test_connection w outcome false = Except.ok c) := by
  have hfe := test_connection_false_eq w outcome
  refine ⟨⟨_, hfe⟩, ?_, ?_⟩
  · intro e he
    rw [hfe, he]
  · intro c hcok
    refine ⟨test_connection_true_ok w outcome c hcok, ?_⟩
    rw [hfe, hcok]

/-- Witness for C5: with a valid URL, a 500 response in result mode
yields a not-connected result carrying exactly the error the raising
mode raises, and a raising-mode 200 response yields the connected
result. -/
theorem test_connection_no_raise_spec_witness :
    test_connection (WebhookInput.str "https://chat.googleapis.com/v1/spaces/A")
        (PostOutcome.response { status_code := 500, text := "oops", jsonBody := none })
        false =
      Except.ok
        { is_connected := false,
          error := some (mkGoogleChatError GCErrorClass.sendMessageError
            ("Google Chat webhook returned " ++ toString (500 : Int) ++ ": " ++ "oops")
            none) } ∧
    (test_connection (WebhookInput.str "https://chat.googleapis.com/v1/spaces/A")
        (PostOutcome.response { status_code := 200, text := "", jsonBody := none })
        true = Except.ok { is_connected := true, error := none }) := by
  constructor
  · exact (test_connection_no_raise_spec
      (WebhookInput.str "https://chat.googleapis.com/v1/spaces/A")
      (PostOutcome.response { status_code := 500, text := "oops", jsonBody := none })).2.1
      _ rfl
  · rfl

/-- C6: the POST timeout bound is the fixed 10 seconds; every
transport-level failure (connection error, DNS failure, timeout) makes
`send` fail with a `GoogleChatClientError` wrapping the underlying
transport error -- timeout included, as the same error class, not a
distinct one -- and a `GoogleChatSendMessageError` is never converted
into a client error: among all outcomes, `send` produces the
send-message class exactly for (non-2xx) responses. -/
theorem send_transport_error_spec :
    REQUEST_TIMEOUT_SECONDS = 10 ∧
    (∀ e : TransportError, ∃ err : GCError,
      send (PostOutcome.requestError e) = Except.error err ∧
      err.cls = GCErrorClass.clientError ∧
      err.original_exception = some (OriginalExc.transport e)) ∧
    (∃ err : GCError,
      send (PostOutcome.requestError TransportError.timeout) = Except.error err ∧
      err.cls = GCErrorClass.clientError ∧
      err.original_exception = some (OriginalExc.transport TransportError.timeout)) ∧
    (∀ outcome : PostOutcome, ∀ err : GCError,
      send outcome = Except.error err →
      (err.cls = GCErrorClass.sendMessageError ↔
        ∃ r : HttpResponse, outcome = PostOutcome.response r)) := by
  refine ⟨rfl, ?_, ?_, ?_⟩
  · intro e
    exact ⟨_, rfl, rfl, rfl⟩
  · exact ⟨_, rfl, rfl, rfl⟩
  · intro outcome err herr
    cases outcome with
    | response r =>
        constructor
        · intro _
          exact ⟨r, rfl⟩
        · intro _
          by_cases hc : 200 ≤ r.status_code ∧ r.status_code < 300
          · simp [send, hc] at herr
          · simp [send, hc] at herr
            rw [← herr]
            rfl
    | requestError e =>
        constructor
        · intro hcls
          simp [send] at herr
          rw [← herr] at hcls
          simp [mkGoogleChatError] at hcls
        · rintro ⟨r, hr⟩
          cases hr
    | unexpectedError s =>
        constructor
        · intro hcls
          simp [send] at herr
          rw [← herr] at hcls
          simp [mkGoogleChatError] at hcls
        · rintro ⟨r, hr⟩
          cases hr

/-- Witness for C6: a timeout expiry is surfaced as the client error
class wrapping the timeout, and the error raised on a 500 response has
the send-message class, not the client error class. -/
theorem send_transport_error_spec_witness :
    (∃ err : GCError,
      send (PostOutcome.requestError TransportError.timeout) = Except.error err ∧
      err.cls = GCErrorClass.clientError ∧
      err.original_exception = some (OriginalExc.transport TransportError.timeout)) ∧
    (mkGoogleChatError GCErrorClass.sendMessageError
        ("Google Chat webhook returned " ++ toString (500 : Int) ++ ": " ++ "oops")
        none).cls = GCErrorClass.sendMessageError := by
  refine ⟨send_transport_error_spec.2.2.1, ?_⟩
  exact (send_transport_error_spec.2.2.2
    (PostOutcome.response { status_code := 500, text := "oops", jsonBody := none })
    (mkGoogleChatError GCErrorClass.sendMessageError
      ("Google Chat webhook returned " ++ toString (500 : Int) ++ ": " ++ "oops") none)
    rfl).mpr ⟨_, rfl⟩

/-- Concrete evaluation: 12 of 22 findings round to 54.55 percent. -/
lemma calc_pct_12_22 : calculate_percentage 12 22 = 5455 / 100 := by
  have hfl : ⌊((12 : Rat) / 22 * 100 * 100)⌋ = 5454 := by
    rw [Int.floor_eq_iff]
    constructor <;> norm_num
  have h2 : (1 : Rat) / 2 < (12 : Rat) / 22 * 100 * 100 - ((5454 : Int) : Rat) := by
    push_cast
    norm_num
  have hr := pyRoundHalfEven_of_gt _ _ hfl h2
  simp only [calculate_percentage, pyRound2]
  rw [if_neg (by norm_num)]
  push_cast [hr]
  norm_num

/-- Concrete evaluation: 10 of 22 findings round to 45.45 percent. -/
lemma calc_pct_10_22 : calculate_percentage 10 22 = 4545 / 100 := by
  have hfl : ⌊((10 : Rat) / 22 * 100 * 100)⌋ = 4545 := by
    rw [Int.floor_eq_iff]
    constructor <;> norm_num
  have h2 : (10 : Rat) / 22 * 100 * 100 - ((4545 : Int) : Rat) < 1 / 2 := by
    push_cast
    norm_num
  have hr := pyRoundHalfEven_of_lt _ _ hfl h2
  simp only [calculate_percentage, pyRound2]
  rw [if_neg (by norm_num)]
  push_cast [hr]
  norm_num

/-- Evaluation rule for `pyFloatRepr` on a non-negative value with
integer part `i` and two-decimal fractional digits `c`. -/
lemma pyFloatRepr_eval (q : Rat) (i c : Int) (hq : ¬ q < 0)
    (hi : ⌊q⌋ = i) (hc : ⌊(q - (i : Rat)) * 100⌋ = c) :
    pyFloatRepr q =
      (if c = 0 then toString i ++ ".0"
       else if c % 10 = 0 then toString i ++ "." ++ toString (c / 10)
       else if c < 10 then toString i ++ ".0" ++ toString c
       else toString i ++ "." ++ toString c) := by
  simp only [pyFloatRepr, if_neg hq, hi, hc, String.empty_append]

/-- Concrete rendering: the rational 54.55 prints as `54.55`. -/
lemma repr_54_55 : pyFloatRepr (5455 / 100 : Rat) = "54.55" := by
  have hq : ¬ (5455 / 100 : Rat) < 0 := by norm_num
  have hi : ⌊(5455 / 100 : Rat)⌋ = 54 := by
    rw [Int.floor_eq_iff]
    constructor <;> norm_num
  have hc : ⌊((5455 / 100 : Rat) - ((54 : Int) : Rat)) * 100⌋ = 55 := by
    have : ((5455 / 100 : Rat) - ((54 : Int) : Rat)) * 100 = ((55 : Int) : Rat) := by
      push_cast
      norm_num
    rw [this, Int.floor_intCast]
  rw [pyFloatRepr_eval _ _ _ hq hi hc]
  norm_num
  rfl

/-- Concrete rendering: the rational 45.45 prints as `45.45`. -/
lemma repr_45_45 : pyFloatRepr (4545 / 100 : Rat) = "45.45" := by
  have hq : ¬ (4545 / 100 : Rat) < 0 := by norm_num
  have hi : ⌊(4545 / 100 : Rat)⌋ = 45 := by
    rw [Int.floor_eq_iff]
    constructor <;> norm_num
  have hc : ⌊((4545 / 100 : Rat) - ((45 : Int) : Rat)) * 100⌋ = 45 := by
    have : ((4545 / 100 : Rat) - ((45 : Int) : Rat)) * 100 = ((45 : Int) : Rat) := by
      push_cast
      norm_num
    rw [this, Int.floor_intCast]
  rw [pyFloatRepr_eval _ _ _ hq hi hc]
  norm_num
  rfl

/-- Concrete rendering: zero prints as `0.0`, as CPython prints the
float `0.0`. -/
lemma repr_zero : pyFloatRepr (0 : Rat) = "0.0" := by
  have hq : ¬ (0 : Rat) < 0 := by norm_num
  have hi : ⌊(0 : Rat)⌋ = 0 := by
    rw [Int.floor_eq_iff]
    constructor <;> norm_num
  have hc : ⌊((0 : Rat) - ((0 : Int) : Rat)) * 100⌋ = 0 := by
    have : ((0 : Rat) - ((0 : Int) : Rat)) * 100 = ((0 : Int) : Rat) := by
      push_cast
      norm_num
    rw [this, Int.floor_intCast]
  rw [pyFloatRepr_eval _ _ _ hq hi hc]
  norm_num
  rfl

/-- C1: the pass and fail percentages rendered in the statistics
section are exactly the values of `calculate_percentage` on
`total_pass` (resp. `total_fail`) over `findings_count`; these equal
`round(count / findings_count * 100, 2)` when `findings_count` is
non-zero and are `0.0` whenever it is zero or absent (no arithmetic
error is possible: the calculator is a total function); in particular
`total_pass=12, total_fail=10, findings_count=22` yields 54.55 and
45.45. -/
theorem statistics_percentages_spec (stats : Stats) :
    (widgetDecoratedTextOf (build_statistics_section stats) 0 =
      some ("✅ *" ++ toString (dictGet stats "total_pass" 0) ++
        " Passed findings* (" ++ pyFloatRepr (pass_percentage_of stats) ++ "%)")) ∧
    (widgetDecoratedTextOf (build_statistics_section stats) 1 =
      some ("❌ *" ++ toString (dictGet stats "total_fail" 0) ++
        " Failed findings* (" ++ pyFloatRepr (fail_percentage_of stats) ++ "%)")) ∧
    (dictGet stats "findings_count" 0 ≠ 0 →
      pass_percentage_of stats =
        pyRound2 ((dictGet stats "total_pass" 0 : Rat) /
          (dictGet stats "findings_count" 0 : Rat) * 100) ∧
      fail_percentage_of stats =
        pyRound2 ((dictGet stats "total_fail" 0 : Rat) /
          (dictGet stats "findings_count" 0 : Rat) * 100)) ∧
    (dictGet stats "findings_count" 0 = 0 →
      pass_percentage_of stats = 0 ∧ fail_percentage_of stats = 0) ∧
    (List.lookup "findings_count" stats = none →
      pass_percentage_of stats = 0 ∧ fail_percentage_of stats = 0) ∧
    (calculate_percentage 12 22 = 5455 / 100 ∧
     calculate_percentage 10 22 = 4545 / 100 ∧
     pyFloatRepr (calculate_percentage 12 22) = "54.55" ∧
     pyFloatRepr (calculate_percentage 10 22) = "45.45" ∧
     pyFloatRepr (0 : Rat) = "0.0") := by
  refine ⟨rfl, rfl, ?_, ?_, ?_, ?_, ?_, ?_, ?_, ?_⟩
  · intro h
    constructor <;>
      simp [pass_percentage_of, fail_percentage_of, calculate_percentage, h]
  · intro h
    constructor <;>
      simp [pass_percentage_of, fail_percentage_of, calculate_percentage, h]
  · intro h
    have h0 : dictGet stats "findings_count" 0 = 0 := by
      simp [dictGet, h]
    constructor <;>
      simp [pass_percentage_of, fail_percentage_of, calculate_percentage, h0]
  · exact calc_pct_12_22
  · exact calc_pct_10_22
  · rw [calc_pct_12_22]
    exact repr_54_55
  · rw [calc_pct_10_22]
    exact repr_45_45
  · exact repr_zero

/-- Witness for C1: on the stats of the repository's own test fixture
the pass percentage is the rounded ratio (54.55), and on a stats
mapping without `findings_count` both percentages are `0.0`. -/
theorem statistics_percentages_spec_witness :
    (dictGet [("total_pass", 12), ("total_fail", 10), ("findings_count", 22)]
        "findings_count" 0 ≠ 0 ∧
      pass_percentage_of [("total_pass", 12), ("total_fail", 10), ("findings_count", 22)] =
        pyRound2 ((12 : Rat) / (22 : Rat) * 100)) ∧
    pass_percentage_of [("total_pass", 12)] = 0 ∧
    fail_percentage_of [("total_pass", 12)] = 0 := by
  refine ⟨⟨by decide, ?_⟩, ?_, ?_⟩
  · have h := (statistics_percentages_spec
      [("total_pass", 12), ("total_fail", 10), ("findings_count", 22)]).2.2.1 (by decide)
    exact h.1
  · exact ((statistics_percentages_spec [("total_pass", 12)]).2.2.2.2.1 rfl).1
  · exact ((statistics_percentages_spec [("total_pass", 12)]).2.2.2.2.1 rfl).2

/-- Counterexample to C7: on a stats mapping without `findings_count`
(whose claimed default value is 0), the greeting/summary line of the
identity section is the empty string, which does not contain the
value `0` -- `build_summary_title` indexes `stats['findings_count']`
and its `except` clause turns the `KeyError` into `""`. -/
theorem identity_summary_counterexample :
    dictGet ([] : Stats) "findings_count" 0 = 0 ∧
    widgetParagraphTextOf
      (build_identity_section "AWS Account *123456789012*" "logo" ([] : Stats)) 1 =
      some "" ∧
    ¬ ContainsSub "" (toString (0 : Int)) := by
  refine ⟨rfl, rfl, ?_⟩
  rintro ⟨a, b, hab⟩
  have hlen : ("" : String).length = (a ++ toString (0 : Int) ++ b).length :=
    congrArg String.length hab
  rw [String.length_append, String.length_append] at hlen
  have h0 : (toString (0 : Int)).length = 1 := rfl
  have ha : ("" : String).length = 0 := rfl
  omega

/-- C7 (amended): the identity section's greeting/summary line contains
the `findings_count` value whenever the field is present in the stats
mapping; when the field is absent the greeting degrades to the empty
string instead of failing; and building the section is a total
function that renders an empty identity as the `Unknown provider`
line instead of throwing. -/
theorem identity_section_amended (stats : Stats) (identity logo : String) :
    (∀ fc : Int, List.lookup "findings_count" stats = some fc →
      ∃ t : String,
        widgetParagraphTextOf (build_identity_section identity logo stats) 1 = some t ∧
        ContainsSub t (toString fc)) ∧
    (List.lookup "findings_count" stats = none →
      widgetParagraphTextOf (build_identity_section identity logo stats) 1 = some "") ∧
    (identity = "" →
      widgetDecoratedTextOf (build_identity_section identity logo stats) 0 =
        some "*Environment*\nUnknown provider") ∧
    (identity ≠ "" →
      widgetDecoratedTextOf (build_identity_section identity logo stats) 0 =
        some ("*Environment*\n" ++ identity)) := by
  refine ⟨?_, ?_, ?_, ?_⟩
  · intro fc hfc
    refine ⟨build_summary_title
      (if identity = "" then "your environment" else identity) stats, rfl, ?_⟩
    simp only [build_summary_title, hfc]
    exact ⟨_, _, rfl⟩
  · intro h
    have ht : build_summary_title
        (if identity = "" then "your environment" else identity) stats = "" := by
      simp [build_summary_title, h]
    have hw : widgetParagraphTextOf (build_identity_section identity logo stats) 1 =
        some (build_summary_title
          (if identity = "" then "your environment" else identity) stats) := rfl
    rw [hw, ht]
  · intro h
    subst h
    rfl
  · intro h
    have hid : (if identity = "" then "Unknown provider" else identity) = identity :=
      if_neg h
    have hw : widgetDecoratedTextOf (build_identity_section identity logo stats) 0 =
        some ("*Environment*\n" ++
          (if identity = "" then "Unknown provider" else identity)) := rfl
    rw [hw, hid]

/-- Witness for the amended C7: with `findings_count = 22` present the
greeting contains `22`; with it absent the greeting is empty; an empty
identity renders the `Unknown provider` line. -/
theorem identity_section_amended_witness :
    (∃ t : String,
      widgetParagraphTextOf (build_identity_section "AWS Account *1*" "logo"
        [("findings_count", 22)]) 1 = some t ∧ ContainsSub t (toString (22 : Int))) ∧
    widgetParagraphTextOf
      (build_identity_section "AWS Account *1*" "logo" ([] : Stats)) 1 = some "" ∧
    widgetDecoratedTextOf (build_identity_section "" "logo" ([] : Stats)) 0 =
      some "*Environment*\nUnknown provider" := by
  exact ⟨(identity_section_amended _ "AWS Account *1*" "logo").1 22 rfl,
    (identity_section_amended _ "AWS Account *1*" "logo").2.1 rfl,
    (identity_section_amended _ "" "logo").2.2.1 rfl⟩

/-- C8: for every constructed client, the card payload has exactly the
three sections identity, statistics, parameters in that order; the
header title is the constructor's card-header override when a
(non-empty, i.e. truthy) one was supplied and the fixed literal
otherwise; the subtitle is the (non-empty) space-name override when
supplied, else the first of the environment variables `AUTH_URL` then
`PROWLER_URL` holding a non-empty value, else the fixed fallback
literal (values that are unset or empty are falsy in the Python `or`
chains and fall through). -/
theorem build_message_card_spec (env : String → Option String)
    (space_name card_header : Option String) (w : WebhookInput)
    (gc : GoogleChatState) (identity logo : String) (stats : Stats) (args : String)
    (hgc : mkGoogleChat w space_name card_header = Except.ok gc) :
    (cardSectionsOf (build_message env gc identity logo stats args) =
      some (JVal.arr [build_identity_section identity logo stats,
        build_statistics_section stats, build_parameters_section args])) ∧
    (∀ ch : String, card_header = some ch → ch ≠ "" →
      headerTitleOf (build_message env gc identity logo stats args) = some ch) ∧
    ((card_header = none ∨ card_header = some "") →
      headerTitleOf (build_message env gc identity logo stats args) =
        some "Prowler Scan Summary") ∧
    (∀ sn : String, space_name = some sn → sn ≠ "" →
      headerSubtitleOf (build_message env gc identity logo stats args) = some sn) ∧
    ((space_name = none ∨ space_name = some "") →
      (∀ a : String, env "AUTH_URL" = some a → a ≠ "" →
        headerSubtitleOf (build_message env gc identity logo stats args) = some a) ∧
      ((env "AUTH_URL" = none ∨ env "AUTH_URL" = some "") →
        (∀ p : String, env "PROWLER_URL" = some p → p ≠ "" →
          headerSubtitleOf (build_message env gc identity logo stats args) = some p) ∧
        ((env "PROWLER_URL" = none ∨ env "PROWLER_URL" = some "") →
          headerSubtitleOf (build_message env gc identity logo stats args) =
            some "https://prowler.com"))) := by
  unfold mkGoogleChat at hgc
  revert hgc
  cases hv : validate_webhook_url w with
  | error e =>
      intro hgc
      exact Except.noConfusion hgc
  | ok url =>
      intro hgc
      injection hgc with hgc
      subst hgc
      have htitle : headerTitleOf (build_message env
          { webhook_url := url, space_name := space_name,
            card_header := pyOrStr card_header DEFAULT_CARD_HEADER }
          identity logo stats args) =
          some (pyOrStr card_header DEFAULT_CARD_HEADER) := rfl
      have hsub : headerSubtitleOf (build_message env
          { webhook_url := url, space_name := space_name,
            card_header := pyOrStr card_header DEFAULT_CARD_HEADER }
          identity logo stats args) =
          some (pyOrStr space_name (DEFAULT_SUBTITLE env)) := rfl
      refine ⟨rfl, ?_, ?_, ?_, ?_⟩
      · intro ch hch hne
        subst hch
        rw [htitle]
        simp [pyOrStr, hne, DEFAULT_CARD_HEADER]
      · intro h
        rw [htitle]
        rcases h with h | h <;> subst h <;> rfl
      · intro sn hsn hne
        subst hsn
        rw [hsub]
        simp [pyOrStr, hne]
      · intro hsp
        have hsp0 : pyOrStr space_name (DEFAULT_SUBTITLE env) = DEFAULT_SUBTITLE env := by
          rcases hsp with h | h <;> subst h <;> rfl
        refine ⟨?_, ?_⟩
        · intro a ha hane
          rw [hsub, hsp0]
          simp [DEFAULT_SUBTITLE, pyOrStr, ha, hane]
        · intro hau
          have hau0 : DEFAULT_SUBTITLE env =
              pyOrStr (env "PROWLER_URL") "https://prowler.com" := by
            rcases hau with h | h <;> simp [DEFAULT_SUBTITLE, pyOrStr, h]
          refine ⟨?_, ?_⟩
          · intro p hp hpne
            rw [hsub, hsp0, hau0]
            simp [pyOrStr, hp, hpne]
          · intro hpu
            rw [hsub, hsp0, hau0]
            rcases hpu with h | h <;> simp [pyOrStr, h]

/-- Witness for C8: with `card_header="Custom"`, no space name and
`AUTH_URL` set, the title is the override and the subtitle is the
`AUTH_URL` value. -/
theorem build_message_card_spec_witness :
    headerTitleOf (build_message
      (fun k => if k = "AUTH_URL" then some "https://auth.internal" else none)
      { webhook_url := "https://chat.googleapis.com/v1/spaces/A",
        space_name := none, card_header := "Custom" }
      "id" "logo" ([] : Stats) "") = some "Custom" ∧
    headerSubtitleOf (build_message
      (fun k => if k = "AUTH_URL" then some "https://auth.internal" else none)
      { webhook_url := "https://chat.googleapis.com/v1/spaces/A",
        space_name := none, card_header := "Custom" }
      "id" "logo" ([] : Stats) "") = some "https://auth.internal" := by
  have h := build_message_card_spec
    (fun k => if k = "AUTH_URL" then some "https://auth.internal" else none)
    none (some "Custom")
    (WebhookInput.str "https://chat.googleapis.com/v1/spaces/A")
    { webhook_url := "https://chat.googleapis.com/v1/spaces/A",
      space_name := none, card_header := "Custom" }
    "id" "logo" ([] : Stats) "" rfl
  refine ⟨h.2.1 "Custom" rfl (by decide), ?_⟩
  exact (h.2.2.2.2 (Or.inl rfl)).1 "https://auth.internal" rfl (by decide)

/-- C10: constructing any Google Chat error with a (truthy, i.e.
non-empty) explicit message mutates the shared class-level table: a
later error of the same class constructed with no message carries that
message instead of the static default, while the numeric code and the
remediation text are unaffected; the pristine default for the
send-message class is the static literal. -/
theorem google_chat_error_mutation_spec (cls : GCErrorClass) (m : String)
    (hm : m ≠ "") :
    (googleChatErrorInitT
        (googleChatErrorInitT GOOGLE_CHAT_ERROR_CODES cls (some m)).2
        cls none).1.message = m ∧
    (googleChatErrorInitT
        (googleChatErrorInitT GOOGLE_CHAT_ERROR_CODES cls (some m)).2
        cls none).1.code = classCode cls ∧
    (googleChatErrorInitT
        (googleChatErrorInitT GOOGLE_CHAT_ERROR_CODES cls (some m)).2
        cls none).1.remediation = defaultRemediation cls ∧
    (googleChatErrorInitT GOOGLE_CHAT_ERROR_CODES cls (some m)).1.message = m ∧
    (googleChatErrorInitT GOOGLE_CHAT_ERROR_CODES cls none).1.message =
      defaultMessage cls ∧
    defaultMessage GCErrorClass.sendMessageError =
      "Google Chat message was not accepted" := by
  cases cls <;>
    simp [googleChatErrorInitT, GOOGLE_CHAT_ERROR_CODES, classCode, gcClassName,
      defaultRemediation, defaultMessage, hm] <;>
    first
      | rfl
      | exact ⟨rfl, rfl, rfl⟩

/-- Witness for C10: constructing a send-message error with the custom
message `custom message` makes a later default-constructed error of the
same class carry `custom message`. -/
theorem google_chat_error_mutation_spec_witness :
    (googleChatErrorInitT
        (googleChatErrorInitT GOOGLE_CHAT_ERROR_CODES
          GCErrorClass.sendMessageError (some "custom message")).2
        GCErrorClass.sendMessageError none).1.message = "custom message" := by
  exact (google_chat_error_mutation_spec GCErrorClass.sendMessageError
    "custom message" (by decide)).1
